import Mathlib

/-!
Verification of the u-blox NB-IoT / LTE-M module driver
(`src/ublox/modules.py`): a shallow embedding of its line-classification,
URC dispatch, radio-statistics parsing, connection state machine and UDP
send/receive formatting, together with theorems settling the spec claims.

Python strings and byte strings are modelled as `String` (lists of
characters); the serial port is modelled as a scripted list of lines that
`readline()` returns in order; Python exceptions are the `PyErr` error
type threaded through `Except`.
-/

namespace Ublox

/-- Python exceptions that the module code can raise. `exhausted` is not a
Python exception: it marks the scripted serial input running out (the real
code would block on `readline`). -/
inductive PyErr where
  /-- `ValueError` (ack mismatch, unsupported operator, `int()` failure,
  tuple-unpack mismatch). -/
  | valueError
  /-- `ATError` raised on a line starting with `ERROR`. -/
  | atError
  /-- `CMEError` raised by the CME-error URC handler, carrying the raw URC. -/
  | cmeError (payload : String)
  /-- `ConnectionTimeoutError` from the R4 polling loop. -/
  | connectionTimeout
  /-- `IndexError` from out-of-range indexing. -/
  | indexError
  /-- `AttributeError`, e.g. calling `.upper()` on an `int`. -/
  | attributeError
  /-- scripted serial input ran out (the real code would block). -/
  | exhausted
deriving DecidableEq, Repr

deriving instance DecidableEq for Except

/-! ## Python string primitives, modelled on `List Char` -/

/-- Python whitespace, as stripped by `str.strip()` / `bytes.strip()`. -/
def isPySpace (c : Char) : Bool :=
  c = ' ' || c = '\t' || c = '\n' || c = '\r' || c = Char.ofNat 11 || c = Char.ofNat 12

/-- Python `s.strip()` on the character list. -/
def pyStripList (l : List Char) : List Char :=
  ((l.dropWhile isPySpace).reverse.dropWhile isPySpace).reverse

/-- Python `s.lstrip()` on the character list. -/
def pyLStripList (l : List Char) : List Char :=
  l.dropWhile isPySpace

/-- Python `s.split(sep)` for a one-character separator `sep`:
`''.split(':') = ['']`, and every occurrence of the separator starts a new
field. -/
def pySplit (c : Char) : List Char → List (List Char)
  | [] => [[]]
  | x :: xs =>
    if x = c then [] :: pySplit c xs
    else
      match pySplit c xs with
      | [] => [[x]]
      | h :: t => (x :: h) :: t

/-- Python `p in s` restriction `s.startswith(p)`. -/
def pyStartsWith (s p : String) : Bool :=
  p.data.isPrefixOf s.data

/-- Python `needle in hay` (substring containment). -/
def pyIn (needle hay : String) : Bool :=
  (List.range (hay.data.length + 1)).any fun i => needle.data.isPrefixOf (hay.data.drop i)

/-- Python `s.upper()` (the module only upper-cases ASCII operator names
and hex digits). -/
def pyUpperS (s : String) : String :=
  String.mk (s.data.map Char.toUpper)

/-- Digit list to number, for `pyInt`. -/
def digitsVal (l : List Char) : Nat :=
  l.foldl (fun a c => 10 * a + (c.toNat - 48)) 0

/-- Python `int(s)`: strips whitespace, allows one optional sign, then
requires a nonempty run of decimal digits; `none` models `ValueError`. -/
def pyInt (s : String) : Option Int :=
  match pyStripList s.data with
  | '-' :: rest =>
    if rest.isEmpty then none
    else if rest.all Char.isDigit then some (-(digitsVal rest : Int)) else none
  | '+' :: rest =>
    if rest.isEmpty then none
    else if rest.all Char.isDigit then some (digitsVal rest : Int) else none
  | l =>
    if l.isEmpty then none
    else if l.all Char.isDigit then some (digitsVal l : Int) else none

/-- Python `s.find(c)`: index of the first occurrence, `-1` when absent. -/
def pyFind (s : String) (c : Char) : Int :=
  match s.data.findIdx? (· = c) with
  | some i => (i : Int)
  | none => -1

/-! ## Device state (`SaraN211Module.__init__`) -/

/-- The mutable attributes of `SaraN211Module` that the URC callbacks and
the radio-statistics fold touch. All start unset/false/empty. -/
structure DeviceState where
  connected : Bool := false
  eps_reg_status : Option Int := none
  ip : Option String := none
  available_messages : List String := []
  radio_signal_power : Option Int := none
  radio_total_power : Option Int := none
  radio_tx_power : Option Int := none
  radio_tx_time : Option Int := none
  radio_rx_time : Option Int := none
  radio_cell_id : Option Int := none
  radio_ecl : Option Int := none
  radio_snr : Option Int := none
  radio_earfcn : Option Int := none
  radio_pci : Option Int := none
  radio_rsrq : Option Int := none
deriving DecidableEq, Repr

/-- The state right after `__init__`. -/
def initState : DeviceState := {}

/-! ## URC callbacks (`SaraN211Module._update_*`, `_add_available_message_callback`,
`_handle_cme_error`) -/

/-- `_update_connection_status_callback`: `status = bool(int(urc[-1]))`.
`urc` is a byte string, so `urc[-1]` is the integer *byte value* of the
last character (48 for `'0'`), and `bool` of it. An empty `urc` would be
an `IndexError`. -/
def updateConnectionStatus (st : DeviceState) (urc : String) : Except PyErr DeviceState :=
  match urc.data.getLast? with
  | some c => .ok { st with connected := c.toNat != 0 }
  | none => .error .indexError

/-- `_update_eps_reg_status_callback`: `status = int(chr(urc[-1]))`. -/
def updateEpsRegStatus (st : DeviceState) (urc : String) : Except PyErr DeviceState :=
  match urc.data.getLast? with
  | some c =>
    match pyInt (String.mk [c]) with
    | some v => .ok { st with eps_reg_status := some v }
    | none => .error .valueError
  | none => .error .indexError

/-- `_update_ip_address_callback`: `ip_addr = _urc[(_urc.find('"') + 1):-1]`. -/
def updateIpAddress (st : DeviceState) (urc : String) : DeviceState :=
  let start : Nat := (pyFind urc '"' + 1).toNat
  let stop : Nat := urc.data.length - 1
  { st with ip := some (String.mk ((urc.data.take stop).drop start)) }

/-- `_add_available_message_callback`: `_urc, data = urc.split(b':')`
(raises `ValueError` unless the split yields exactly two parts), then the
left-stripped payload is appended to `available_messages`. -/
def addAvailableMessage (st : DeviceState) (urc : String) : Except PyErr DeviceState :=
  match pySplit ':' urc.data with
  | [_, d] =>
    .ok { st with available_messages :=
            st.available_messages ++ [String.mk (pyLStripList d)] }
  | _ => .error .valueError

/-- `_process_urc`'s identifier extraction: `_urc[1:_urc.find(':')]`
(Python slicing: a `find` miss gives `-1`, i.e. the slice `[1:-1]`). -/
def urcId (urc : String) : String :=
  let j := pyFind urc ':'
  let stop : Nat := if j < 0 then urc.data.length - 1 else j.toNat
  String.mk ((urc.data.take stop).drop 1)

/-- `_process_urc`: look the identifier up in the callback map and run the
handler; unmatched identifiers are logged and ignored. -/
def processUrc (st : DeviceState) (urc : String) : Except PyErr DeviceState :=
  let id := urcId urc
  if id = "CSCON" then updateConnectionStatus st urc
  else if id = "CEREG" then updateEpsRegStatus st urc
  else if id = "CGPADDR" then .ok (updateIpAddress st urc)
  else if id = "NSONMI" then addAvailableMessage st urc
  else if id = "CME ERROR" then .error (.cmeError urc)
  else .ok st

/-! ## Transaction engine (`_write`, `_read_line_until_contains`, `_at_action`) -/

/-- `_remove_line_ending`: strip one trailing `\r\n` if present. -/
def removeLineEnding (line : String) : String :=
  if "\r\n".data.isSuffixOf line.data then String.mk (line.data.dropLast.dropLast)
  else line

/-- The read loop of `_read_line_until_contains`: classify each line
(URC / `OK` / `ERROR`-prefixed / empty / IRC), dispatch URCs, collect
IRCs, and stop as soon as a line *contains* the slice as a substring.
Returns the updated state, the collected IRC list and the unread rest of
the scripted input. -/
def readLinesGo (slice : String) :
    DeviceState → List String → List String →
    Except PyErr (DeviceState × List String × List String)
  | _, _, [] => .error .exhausted
  | st, ircs, raw :: rest =>
    let line := removeLineEnding raw
    if pyStartsWith line "+" then
      match processUrc st line with
      | .error e => .error e
      | .ok st1 =>
        if pyIn slice line then .ok (st1, ircs, rest)
        else readLinesGo slice st1 ircs rest
    else if line = "OK" then
      if pyIn slice line then .ok (st, ircs, rest)
      else readLinesGo slice st ircs rest
    else if pyStartsWith line "ERROR" then .error .atError
    else if line = "" then
      if pyIn slice line then .ok (st, ircs, rest)
      else readLinesGo slice st ircs rest
    else
      if pyIn slice line then .ok (st, ircs ++ [line], rest)
      else readLinesGo slice st (ircs ++ [line]) rest

/-- `_read_line_until_contains(slice)` run against scripted serial input. -/
def readLineUntilContains (slice : String) (st : DeviceState) (stream : List String) :
    Except PyErr (DeviceState × List String × List String) :=
  readLinesGo slice st [] stream

/-- `_write(data)`: the command is written (with `\r\n` appended) and one
raw acknowledgement line is read, which must be the bare terminator
`\r\n`; with echo on, the first `len(data) + 1` characters of the
acknowledgement are dropped first. A mismatch raises `ValueError`. -/
def writeAck (echo : Bool) (data : String) (stream : List String) :
    Except PyErr (List String) :=
  match stream with
  | [] => .error .exhausted
  | ackRaw :: rest =>
    let ack := if echo then String.mk (ackRaw.data.drop (data.length + 1)) else ackRaw
    if ack = "\r\n" then .ok rest else .error .valueError

/-- `_at_action(at_command)`: write the command, then read lines until one
contains `OK`, returning the collected IRC list. -/
def atAction (echo : Bool) (cmd : String) (st : DeviceState) (stream : List String) :
    Except PyErr (DeviceState × List String × List String) :=
  match writeAck echo cmd stream with
  | .error e => .error e
  | .ok rest => readLineUntilContains "OK" st rest

/-- The result sequence of a successful transaction as §8 of the spec
describes it ("exactly the ResultLines between the acknowledgement and the
terminal status, order preserved, empty lines excluded", the terminal
status being the line exactly equal to `OK`). -/
def specResultLines (body : List String) : List String :=
  (body.takeWhile (· ≠ "OK")).filter (· ≠ "")

/-! ## Radio statistics (`Stats`, `_parse_radio_stats_string`, `_parse_radio_stats`) -/

/-- The `Stats` namedtuple: `(type, name, value)`. -/
structure Stats where
  type : String
  name : String
  value : Int
deriving DecidableEq, Repr

/-- `_parse_radio_stats_string`: split on `:`; `parts[1]` raises
`IndexError` when the line holds no colon; strip the tag and the payload,
delete all double quotes, split the payload on `,`; a tag other than
`NUESTATS` yields `None`; otherwise build a `Stats` from the first three
fields (`IndexError` if fewer, `ValueError` if the third is not an
integer). -/
def parseRadioStatsString (s : String) : Except PyErr (Option Stats) :=
  match pySplit ':' s.data with
  | [] => .error .indexError
  | [_] => .error .indexError
  | p0 :: p1 :: _ =>
    let irc := String.mk (pyStripList p0)
    let data := (pyStripList p1).filter (fun c => c ≠ '"')
    let dataParts := pySplit ',' data
    if irc = "NUESTATS" then
      match dataParts with
      | d0 :: d1 :: d2 :: _ =>
        match pyInt (String.mk d2) with
        | some v => .ok (some ⟨String.mk d0, String.mk d1, v⟩)
        | none => .error .valueError
      | _ => .error .indexError
    else .ok none

/-- The tag part of a statistics line: what `_parse_radio_stats_string`
compares against `NUESTATS` (text before the first colon, stripped). -/
def statsTag (s : String) : String :=
  String.mk (pyStripList ((pySplit ':' s.data).headI))

/-- Python list comprehension over a fallible function: left to right, the
first raised exception aborts the whole comprehension. -/
def mapExceptList (f : α → Except ε β) : List α → Except ε (List β)
  | [] => .ok []
  | a :: as =>
    match f a with
    | .error e => .error e
    | .ok b =>
      match mapExceptList f as with
      | .error e => .error e
      | .ok bs => .ok (b :: bs)

/-- One step of the `for stat in stats` fold in `_parse_radio_stats`:
`None` entries are skipped, recognised `(type, name)` pairs update their
field, everything else is logged and ignored. -/
def applyStat (st : DeviceState) (o : Option Stats) : DeviceState :=
  match o with
  | none => st
  | some stat =>
    if stat.type = "RADIO" ∧ stat.name = "Signal power" then
      { st with radio_signal_power := some stat.value }
    else if stat.type = "RADIO" ∧ stat.name = "Total power" then
      { st with radio_total_power := some stat.value }
    else if stat.type = "RADIO" ∧ stat.name = "TX power" then
      { st with radio_tx_power := some stat.value }
    else if stat.type = "RADIO" ∧ stat.name = "TX time" then
      { st with radio_tx_time := some stat.value }
    else if stat.type = "RADIO" ∧ stat.name = "RX time" then
      { st with radio_rx_time := some stat.value }
    else if stat.type = "RADIO" ∧ stat.name = "Cell ID" then
      { st with radio_cell_id := some stat.value }
    else if stat.type = "RADIO" ∧ stat.name = "ECL" then
      { st with radio_ecl := some stat.value }
    else if stat.type = "RADIO" ∧ stat.name = "SNR" then
      { st with radio_snr := some stat.value }
    else if stat.type = "RADIO" ∧ stat.name = "EARFCN" then
      { st with radio_earfcn := some stat.value }
    else if stat.type = "RADIO" ∧ stat.name = "PCI" then
      { st with radio_pci := some stat.value }
    else if stat.type = "RADIO" ∧ stat.name = "RSRQ" then
      { st with radio_rsrq := some stat.value }
    else st

/-- `_parse_radio_stats(irc_buffer)`: parse every line first (the list
comprehension), then fold the records into the device state. -/
def parseRadioStats (st : DeviceState) (ircBuffer : List String) : Except PyErr DeviceState :=
  match mapExceptList parseRadioStatsString ircBuffer with
  | .error e => .error e
  | .ok stats => .ok (stats.foldl applyStat st)

/-! ## UDP send/receive (`send_udp_data`, `_parse_udp_response`) -/

/-- One hex digit, lowercase, as `binascii.hexlify` produces. -/
def hexDigit (n : Nat) : Char :=
  if n < 10 then Char.ofNat (48 + n) else Char.ofNat (87 + n)

/-- `binascii.hexlify`: each byte becomes two lowercase hex digits. -/
def hexlify (bs : List Nat) : String :=
  String.mk (bs.flatMap fun b => [hexDigit (b / 16), hexDigit (b % 16)])

/-- Python `str.encode()`: UTF-8 bytes of the string. -/
def utf8EncodeChar (c : Char) : List Nat :=
  let n := c.toNat
  if n < 0x80 then [n]
  else if n < 0x800 then [0xC0 ||| (n >>> 6), 0x80 ||| (n &&& 0x3F)]
  else if n < 0x10000 then
    [0xE0 ||| (n >>> 12), 0x80 ||| ((n >>> 6) &&& 0x3F), 0x80 ||| (n &&& 0x3F)]
  else
    [0xF0 ||| (n >>> 18), 0x80 ||| ((n >>> 12) &&& 0x3F),
     0x80 ||| ((n >>> 6) &&& 0x3F), 0x80 ||| (n &&& 0x3F)]

/-- Python `data.encode()` for a whole string. -/
def pyEncode (s : String) : List Nat :=
  s.data.flatMap utf8EncodeChar

/-- The AT command `SaraN211Module.send_udp_data` formats:
`'{},"{}",{},{},"{}"'.format(AT_SEND_TO, host, port, length, _data)` with
`AT_SEND_TO = 'AT+NSOST=0'`, `_data` the upper-cased hexlified UTF-8 bytes
and `length = len(data)` (the *character* count of the payload string). -/
def sendUdpCommandN211 (host : String) (port : Nat) (data : String) : String :=
  "AT+NSOST=0," ++ "\"" ++ host ++ "\"," ++ toString port ++ ","
    ++ toString data.length ++ ",\"" ++ pyUpperS (hexlify (pyEncode data)) ++ "\""

/-- The AT command `SaraR4Module.send_udp_data` formats:
`'AT+USOST=0,"{}",{},{},"{}"'.format(host, port, length, _data)`. -/
def sendUdpCommandR4 (host : String) (port : Nat) (data : String) : String :=
  "AT+USOST=0," ++ "\"" ++ host ++ "\"," ++ toString port ++ ","
    ++ toString data.length ++ ",\"" ++ pyUpperS (hexlify (pyEncode data)) ++ "\""

/-- Value of one hex digit for `bytes.fromhex`, either case. -/
def hexVal (c : Char) : Option Nat :=
  if '0' ≤ c ∧ c ≤ '9' then some (c.toNat - 48)
  else if 'a' ≤ c ∧ c ≤ 'f' then some (c.toNat - 87)
  else if 'A' ≤ c ∧ c ≤ 'F' then some (c.toNat - 55)
  else none

/-- Digit-pair loop of `bytes.fromhex`: an odd count or a non-hex digit is
a `ValueError` (modelled as `none`). -/
def pyFromHexGo : List Char → Option (List Nat)
  | [] => some []
  | [_] => none
  | c1 :: c2 :: rest =>
    match hexVal c1, hexVal c2, pyFromHexGo rest with
    | some h, some l, some bs => some ((16 * h + l) :: bs)
    | _, _, _ => none

/-- Python `bytes.fromhex` (spaces between byte pairs are skipped). -/
def pyFromHex (s : String) : Option (List Nat) :=
  pyFromHexGo (s.data.filter (· ≠ ' '))

/-- Python `message.replace(b'"', b'')`: delete every double quote. -/
def stripQuotes (l : List Char) : List Char :=
  l.filter (fun c => c ≠ '"')

/-- `_parse_udp_response(message)`: delete all quotes, split on `,`, unpack
into exactly six fields (`ValueError` otherwise), and hex-decode the fifth
field back to raw bytes. -/
def parseUdpResponse (message : String) : Except PyErr (List Nat) :=
  match pySplit ',' (stripQuotes message.data) with
  | [_socket, _ip, _port, _length, d, _remaining] =>
    match pyFromHex (String.mk d) with
    | some bs => .ok bs
    | none => .error .valueError
  | _ => .error .valueError

/-! ## Connection (`connect`, `SaraN211Module._await_connection`,
`SaraR4Module._await_connection`) -/

/-- The `operator` argument of `connect`: Python passes `None`, an `int`
operator id, or a textual operator name. -/
inductive Operator where
  | nothing
  | byId (id : Int)
  | byName (name : String)
deriving DecidableEq, Repr

/-- Python truthiness of the `operator` argument (`if operator:`). -/
def operatorTruthy : Operator → Bool
  | .nothing => false
  | .byId i => i != 0
  | .byName s => s != ""

/-- The fixed operator table `OPERATOR_MAP = {'TELIA': 24001, 'TRE': 24002}`. -/
def OPERATOR_MAP : List (String × Int) := [("TELIA", 24001), ("TRE", 24002)]

/-- The operator-selection command `connect` builds: manual selection
`AT+COPS=1,2,"<id>"` for a truthy operator (`ValueError` when a textual
name is missing from `OPERATOR_MAP`), automatic selection `AT+COPS=0`
otherwise. -/
def connectCommand (op : Operator) : Except PyErr String :=
  if operatorTruthy op then
    match op with
    | .byId i => .ok ("AT+COPS=1,2,\"" ++ toString i ++ "\"")
    | .byName s =>
      match OPERATOR_MAP.lookup (pyUpperS s) with
      | some i => .ok ("AT+COPS=1,2,\"" ++ toString i ++ "\"")
      | none => .error .valueError
    | .nothing => .ok "AT+COPS=0"
  else .ok "AT+COPS=0"

/-- `SaraN211Module._await_connection(operator)`: block reading lines
until the registration URC for the operator's target code appears.
`operator.upper()` on an `int` (or `None`) raises `AttributeError`. -/
def awaitConnectionN211 (op : Operator) (st : DeviceState) (stream : List String) :
    Except PyErr (DeviceState × List String × List String) :=
  match op with
  | .byName s =>
    if pyUpperS s = "TELIA" then readLineUntilContains "CEREG: 5" st stream
    else if pyUpperS s = "TRE" then readLineUntilContains "CEREG: 1" st stream
    else .error .valueError
  | _ => .error .attributeError

/-- `SaraN211Module.connect(operator)` run against scripted serial input:
build the operator-selection command, issue it with `_at_action`, then
await the connection. Returns the list of commands written to the
transport alongside the outcome. -/
def connectN211 (echo : Bool) (op : Operator) (st : DeviceState) (stream : List String) :
    List String × Except PyErr DeviceState :=
  match connectCommand op with
  | .error e => ([], .error e)
  | .ok cmd =>
    match atAction echo cmd st stream with
    | .error e => ([cmd], .error e)
    | .ok (st1, _, rest) =>
      match awaitConnectionN211 op st1 rest with
      | .error e => ([cmd], .error e)
      | .ok (st2, _, _) => ([cmd], .ok st2)

/-- Outcome of the R4 active-polling loop over a finite poll script. -/
inductive AwaitR4Result where
  /-- the loop hit `break`: registration reached the target code. -/
  | connected (st : DeviceState)
  /-- an exception propagated out of the loop. -/
  | err (e : PyErr)
  /-- the scripted polls ran out with the loop still going (the real loop
  would keep polling forever). -/
  | outOfPolls (st : DeviceState)
deriving DecidableEq, Repr

/-- `SaraR4Module._await_connection(operator, timeout)`: each list entry
scripts one loop iteration — the serial lines answering that iteration's
`AT+CEREG?` poll, and the value `time.time() - start_time` would read at
that iteration's timeout check. Per the source: a status of `0` goes
straight to the next poll (`continue`), the target code breaks out,
an unsupported operator raises `ValueError`, and only then is the elapsed
time compared against the timeout. -/
def awaitConnectionR4 (echo : Bool) (op : Operator) (timeout : Nat) (st : DeviceState) :
    List (List String × Nat) → AwaitR4Result
  | [] => .outOfPolls st
  | (stream, elapsed) :: rest =>
    match atAction echo "AT+CEREG?" st stream with
    | .error e => .err e
    | .ok (st1, _, _) =>
      if st1.eps_reg_status = some 0 then
        awaitConnectionR4 echo op timeout st1 rest
      else
        match op with
        | .byName s =>
          if pyUpperS s = "TELIA" then
            if st1.eps_reg_status = some 5 then .connected st1
            else if elapsed > timeout then .err .connectionTimeout
            else awaitConnectionR4 echo op timeout st1 rest
          else if pyUpperS s = "TRE" then
            if st1.eps_reg_status = some 1 then .connected st1
            else if elapsed > timeout then .err .connectionTimeout
            else awaitConnectionR4 echo op timeout st1 rest
          else .err .valueError
        | _ => .err .attributeError

/-! ## Helper lemmas about the read loop -/

theorem pyIn_refl (s : String) : pyIn s s = true := by
  unfold pyIn
  rw [List.any_eq_true]
  exact ⟨0, by simp, by simp [List.isPrefixOf_iff_prefix]⟩

theorem ne_of_pyIn_false {slice l : String} (h : pyIn slice l = false) : l ≠ slice := by
  intro he
  subst he
  rw [pyIn_refl] at h
  exact Bool.true_eq_false.mp h

/-- A line starting with `ERROR` does not start with `+` and is not `OK`. -/
theorem startsWith_ERROR_shape {s : String} (h : pyStartsWith s "ERROR" = true) :
    pyStartsWith s "+" = false ∧ s ≠ "OK" := by
  unfold pyStartsWith at h ⊢
  rw [List.isPrefixOf_iff_prefix] at h
  obtain ⟨t, ht⟩ := h
  have hd : s.data = 'E' :: 'R' :: 'R' :: 'O' :: 'R' :: t := by
    rw [← ht]; rfl
  refine ⟨?_, ?_⟩
  · rw [hd]; rfl
  · intro hOK
    rw [hOK] at hd
    have hd' : ('O' :: 'K' :: [] : List Char) = 'E' :: 'R' :: 'R' :: 'O' :: 'R' :: t := hd
    injection hd' with h1 _
    exact absurd h1 (by decide)

/-- Lines that are not URCs, not `ERROR`-prefixed and do not contain the
slice are consumed by the read loop without a break: empty (and `OK`)
lines are dropped, the others accumulate as IRCs. -/
theorem readLinesGo_skip (slice : String) (st : DeviceState) (ircs : List String)
    (pre rest : List String)
    (h : ∀ l ∈ pre, pyStartsWith (removeLineEnding l) "+" = false ∧
      pyStartsWith (removeLineEnding l) "ERROR" = false ∧
      pyIn slice (removeLineEnding l) = false) :
    readLinesGo slice st ircs (pre ++ rest) =
      readLinesGo slice st
        (ircs ++ (pre.map removeLineEnding).filter (fun x => decide (x ≠ "OK" ∧ x ≠ ""))) rest := by
  induction pre generalizing ircs with
  | nil => simp
  | cons l pre ih =>
    obtain ⟨h1, h2, h3⟩ := h l (List.mem_cons_self l pre)
    have hpre := fun x hx => h x (List.mem_cons_of_mem l hx)
    rw [List.cons_append]
    by_cases hOK : removeLineEnding l = "OK"
    · rw [hOK] at h3
      have : readLinesGo slice st ircs (l :: (pre ++ rest)) =
          readLinesGo slice st ircs (pre ++ rest) := by
        simp only [readLinesGo, hOK]
        simp [show pyStartsWith "OK" "+" = false from rfl, h3]
      rw [this, ih ircs hpre]
      simp [hOK]
    · by_cases hEmp : removeLineEnding l = ""
      · rw [hEmp] at h3
        have : readLinesGo slice st ircs (l :: (pre ++ rest)) =
            readLinesGo slice st ircs (pre ++ rest) := by
          simp only [readLinesGo, hEmp]
          simp [show pyStartsWith "" "+" = false from rfl,
            show pyStartsWith "" "ERROR" = false from rfl, h3,
            show ("" : String) ≠ "OK" from by decide]
        rw [this, ih ircs hpre]
        simp [hEmp, hOK]
      · have : readLinesGo slice st ircs (l :: (pre ++ rest)) =
            readLinesGo slice st (ircs ++ [removeLineEnding l]) (pre ++ rest) := by
          simp only [readLinesGo, h1, h2, hOK, hEmp, h3]
          simp [hOK, hEmp]
        rw [this, ih (ircs ++ [removeLineEnding l]) hpre]
        simp [hOK, hEmp]

theorem takeWhile_append_cons (p : α → Bool) (l1 : List α) (x : α) (l2 : List α)
    (h : ∀ a ∈ l1, p a = true) (hx : p x = false) :
    (l1 ++ x :: l2).takeWhile p = l1 := by
  induction l1 with
  | nil => simp [List.takeWhile_cons, hx]
  | cons a l ih =>
    have ha := h a (List.mem_cons_self a l)
    simp [List.takeWhile_cons, ha, ih (fun b hb => h b (List.mem_cons_of_mem a hb))]

/-! ## Claim C5 -/

/-- **C5**: whenever a TerminalError line (one starting with `ERROR`) is
read during a transaction — after any number of result lines, empty lines
or `OK`-classified lines that were consumed without ending the read — the
transaction fails with CommandError (`ATError`) and no partial result
sequence is returned. -/
theorem terminal_error_always_raises (slice : String) (st : DeviceState)
    (pre : List String) (e : String) (post : List String)
    (hpre : ∀ l ∈ pre, pyStartsWith (removeLineEnding l) "+" = false ∧
      pyStartsWith (removeLineEnding l) "ERROR" = false ∧
      pyIn slice (removeLineEnding l) = false)
    (he : pyStartsWith (removeLineEnding e) "ERROR" = true) :
    readLineUntilContains slice st (pre ++ e :: post) = .error .atError := by
  unfold readLineUntilContains
  rw [readLinesGo_skip slice st [] pre (e :: post) hpre]
  obtain ⟨hplus, hOK⟩ := startsWith_ERROR_shape he
  simp only [readLinesGo, hplus, he, hOK]
  simp [hplus, hOK, he]

theorem terminal_error_always_raises_witness :
    (∀ l ∈ ["DATA1", ""], pyStartsWith (removeLineEnding l) "+" = false ∧
      pyStartsWith (removeLineEnding l) "ERROR" = false ∧
      pyIn "OK" (removeLineEnding l) = false) ∧
    pyStartsWith (removeLineEnding "ERROR: no") "ERROR" = true ∧
    readLineUntilContains "OK" initState (["DATA1", ""] ++ "ERROR: no" :: ["OK"]) =
      .error .atError :=
  ⟨by decide, by decide,
    terminal_error_always_raises "OK" initState ["DATA1", ""] "ERROR: no" ["OK"]
      (by decide) (by decide)⟩

/-! ## Claim C3 -/

/-- **C3** (counterexample to the claim as stated): the read loop ends on
the first line *containing* `OK` as a substring, not on the line exactly
equal to `OK`. With response stream `LOOKUP, DATA2, OK` (no notification
lines), `execute` returns `[LOOKUP]`, while the ResultLines before the
line exactly equal to `OK` are `[LOOKUP, DATA2]`. -/
theorem execute_substring_ok_counterexample :
    atAction false "AT" initState ["\r\n", "LOOKUP", "DATA2", "OK"] =
      .ok (initState, ["LOOKUP"], ["DATA2", "OK"]) ∧
    specResultLines ["LOOKUP", "DATA2", "OK"] = ["LOOKUP", "DATA2"] ∧
    (["LOOKUP"] : List String) ≠ ["LOOKUP", "DATA2"] := by decide

/-- **C3** (amended): for a command whose response stream has no
notification lines, no `ERROR`-prefixed line, and no result line
containing the token `OK` as a substring, `execute` returns exactly the
non-empty ResultLines between the write acknowledgement and the line
exactly equal to `OK`, order preserved, empty lines excluded. -/
theorem execute_returns_result_lines (cmd : String) (st : DeviceState)
    (pre post : List String)
    (hpre : ∀ l ∈ pre, removeLineEnding l = l ∧ pyStartsWith l "+" = false ∧
      pyStartsWith l "ERROR" = false ∧ pyIn "OK" l = false) :
    atAction false cmd st ("\r\n" :: (pre ++ "OK" :: post)) =
      .ok (st, specResultLines (pre ++ "OK" :: post), post) := by
  have hpre' : ∀ l ∈ pre, pyStartsWith (removeLineEnding l) "+" = false ∧
      pyStartsWith (removeLineEnding l) "ERROR" = false ∧
      pyIn "OK" (removeLineEnding l) = false := by
    intro l hl
    obtain ⟨hr, h1, h2, h3⟩ := hpre l hl
    rw [hr]
    exact ⟨h1, h2, h3⟩
  have hack : atAction false cmd st ("\r\n" :: (pre ++ "OK" :: post)) =
      readLinesGo "OK" st [] (pre ++ "OK" :: post) := rfl
  rw [hack, readLinesGo_skip "OK" st [] pre ("OK" :: post) hpre']
  have hstep : ∀ f : List String, readLinesGo "OK" st f ("OK" :: post) = .ok (st, f, post) :=
    fun f => rfl
  rw [hstep]
  have hmap : pre.map removeLineEnding = pre := by
    rw [List.map_congr_left fun l hl => (hpre l hl).1, List.map_id']
  have hne : ∀ l ∈ pre, l ≠ "OK" := fun l hl => ne_of_pyIn_false (hpre l hl).2.2.2
  have hspec : specResultLines (pre ++ "OK" :: post) = pre.filter (fun x => decide (x ≠ "")) := by
    unfold specResultLines
    rw [takeWhile_append_cons _ pre "OK" post
      (fun a ha => by simpa using hne a ha) (by simp)]
  rw [hspec, hmap]
  have hfilter : pre.filter (fun x => decide (x ≠ "OK" ∧ x ≠ "")) =
      pre.filter (fun x => decide (x ≠ "")) := by
    refine List.filter_congr fun x hx => ?_
    simp [hne x hx]
  rw [hfilter]
  simp

theorem execute_returns_result_lines_witness :
    (∀ l ∈ ["DATA1", "", "DATA2"], removeLineEnding l = l ∧ pyStartsWith l "+" = false ∧
      pyStartsWith l "ERROR" = false ∧ pyIn "OK" l = false) ∧
    atAction false "AT" initState ("\r\n" :: (["DATA1", "", "DATA2"] ++ "OK" :: ["later"])) =
      .ok (initState, specResultLines (["DATA1", "", "DATA2"] ++ "OK" :: ["later"]), ["later"]) :=
  ⟨by decide,
    execute_returns_result_lines "AT" initState ["DATA1", "", "DATA2"] ["later"] (by decide)⟩

/-! ## Claim C1 -/

/-- **C1** (counterexample to the claim as stated): `continue` on
registration status 0 skips the timeout check. With both scripted polls
answering status 0 and wall-clock readings (200 s, then 300 s) past the
180 s timeout, the loop keeps polling — it consumes the second poll after
the timeout has already elapsed — and never raises ConnectionTimeout. -/
theorem r4_timeout_skipped_counterexample :
    awaitConnectionR4 false (.byName "TELIA") 180 initState
        [(["\r\n", "+CEREG: 0,0", "OK"], 200), (["\r\n", "+CEREG: 0,0", "OK"], 300)] =
      .outOfPolls { initState with eps_reg_status := some 0 } ∧
    awaitConnectionR4 false (.byName "TELIA") 180 initState
        [(["\r\n", "+CEREG: 0,0", "OK"], 200), (["\r\n", "+CEREG: 0,0", "OK"], 300)] ≠
      .err .connectionTimeout := by decide

/-- **C1** (amended): the elapsed wall-clock time is checked only on
iterations whose polled registration status is neither the
not-yet-registered sentinel `0` nor the operator's target code; on such an
iteration, once the elapsed time exceeds the caller-supplied timeout, the
attempt fails with ConnectionTimeout and no further polls occur. (If
every poll returns status `0`, polling continues indefinitely.) -/
theorem r4_timeout_checked_on_nonzero_nontarget_poll
    (echo : Bool) (name : String) (target : Int) (timeout : Nat)
    (st st1 : DeviceState) (stream ircs rest0 : List String) (elapsed : Nat)
    (rest : List (List String × Nat)) (k : Int)
    (hop : (pyUpperS name = "TELIA" ∧ target = 5) ∨ (pyUpperS name = "TRE" ∧ target = 1))
    (hpoll : atAction echo "AT+CEREG?" st stream = .ok (st1, ircs, rest0))
    (hk : st1.eps_reg_status = some k) (hk0 : k ≠ 0) (hkt : k ≠ target)
    (ht : timeout < elapsed) :
    awaitConnectionR4 echo (.byName name) timeout st ((stream, elapsed) :: rest) =
      .err .connectionTimeout := by
  simp only [awaitConnectionR4, hpoll]
  rcases hop with ⟨hn, htg⟩ | ⟨hn, htg⟩ <;> subst htg <;> rw [hk, hn] <;>
    simp [hk0, hkt, ht]

theorem r4_timeout_checked_witness :
    ((pyUpperS "TELIA" = "TELIA" ∧ (5 : Int) = 5) ∨
      (pyUpperS "TELIA" = "TRE" ∧ (5 : Int) = 1)) ∧
    atAction false "AT+CEREG?" initState ["\r\n", "+CEREG: 0,2", "OK"] =
      .ok ({ initState with eps_reg_status := some 2 }, [], []) ∧
    (2 : Int) ≠ 0 ∧ (2 : Int) ≠ 5 ∧ (180 : Nat) < 200 ∧
    awaitConnectionR4 false (.byName "TELIA") 180 initState
        [(["\r\n", "+CEREG: 0,2", "OK"], 200)] = .err .connectionTimeout :=
  ⟨Or.inl ⟨by decide, rfl⟩, by decide, by decide, by decide, by decide,
    r4_timeout_checked_on_nonzero_nontarget_poll false "TELIA" 5 180 initState
      { initState with eps_reg_status := some 2 } ["\r\n", "+CEREG: 0,2", "OK"] [] [] 200 [] 2
      (Or.inl ⟨by decide, rfl⟩) (by decide) rfl (by decide) (by decide) (by decide)⟩

/-! ## Claim C2 -/

/-- **C2** (the code is wrong): `_update_connection_status_callback`
computes `bool(int(urc[-1]))` on a *byte string*, so `urc[-1]` is the
integer byte value of the last character (48 for `'0'`, 49 for `'1'`),
which is never 0: the connected flag is set to True for a payload ending
in `'0'` just as for one ending in `'1'`, contradicting both the claim and
the callback's own docstring. -/
theorem cscon_callback_ignores_payload (st : DeviceState) :
    processUrc st "+CSCON: 0" = .ok { st with connected := true } ∧
    processUrc st "+CSCON: 1" = .ok { st with connected := true } :=
  ⟨rfl, rfl⟩

/-! ## Claim C6 -/

/-- **C6**: calling `connect` with a textual operator name that is not in
`OPERATOR_MAP` (after upper-casing) raises `ValueError` immediately, with
nothing written to the transport. -/
theorem connect_unknown_operator_no_write (echo : Bool) (name : String)
    (st : DeviceState) (stream : List String)
    (hne : name ≠ "")
    (hmap : OPERATOR_MAP.lookup (pyUpperS name) = none) :
    connectN211 echo (.byName name) st stream = ([], .error .valueError) := by
  unfold connectN211 connectCommand
  simp [operatorTruthy, hne, hmap]

theorem connect_unknown_operator_no_write_witness :
    ("VODAFONE" : String) ≠ "" ∧
    OPERATOR_MAP.lookup (pyUpperS "VODAFONE") = none ∧
    connectN211 false (.byName "VODAFONE") initState ["\r\n", "OK"] =
      ([], .error .valueError) :=
  ⟨by decide, by decide,
    connect_unknown_operator_no_write false "VODAFONE" initState ["\r\n", "OK"]
      (by decide) (by decide)⟩

/-! ## Claim C7 -/

/-- **C7** (the code is wrong): `connect` accepts a raw numeric operator
id and issues the manual selection command `AT+COPS=1,2,"24001"`, but
`_await_connection` then calls `operator.upper()` on the `int`, raising
`AttributeError` — the attempt can never complete the way a textual
operator name does. -/
theorem connect_numeric_operator_crashes :
    connectN211 false (.byId 24001) initState ["\r\n", "OK"] =
      (["AT+COPS=1,2,\"24001\""], .error .attributeError) := by decide

/-! ## Helper lemmas about `pySplit` -/

theorem pySplit_ne_nil (c : Char) (l : List Char) : pySplit c l ≠ [] := by
  induction l with
  | nil => simp [pySplit]
  | cons x xs ih =>
    by_cases hx : x = c
    · simp [pySplit, hx]
    · simp only [pySplit, hx, if_false]
      cases hps : pySplit c xs with
      | nil => simp
      | cons h t => simp

theorem pySplit_two_of_mem {c : Char} {l : List Char} (h : c ∈ l) :
    ∃ p0 p1 t, pySplit c l = p0 :: p1 :: t := by
  induction l with
  | nil => cases h
  | cons x xs ih =>
    by_cases hx : x = c
    · subst hx
      obtain ⟨p, t, hpt⟩ := List.exists_cons_of_ne_nil (pySplit_ne_nil x xs)
      exact ⟨[], p, t, by simp [pySplit, hpt]⟩
    · have hmem : c ∈ xs := by
        rcases List.mem_cons.mp h with h' | h'
        · exact absurd h'.symm hx
        · exact h'
      obtain ⟨p0, p1, t, heq⟩ := ih hmem
      exact ⟨x :: p0, p1, t, by simp [pySplit, hx, heq]⟩

theorem pySplit_not_mem (c : Char) (l : List Char) (h : c ∉ l) : pySplit c l = [l] := by
  induction l with
  | nil => rfl
  | cons x xs ih =>
    have hx : ¬x = c := fun he => h (by simp [he])
    have ihx := ih fun hm => h (List.mem_cons_of_mem x hm)
    simp [pySplit, hx, ihx]

theorem pySplit_append (c : Char) (l1 l2 : List Char) (h : c ∉ l1) :
    pySplit c (l1 ++ c :: l2) = l1 :: pySplit c l2 := by
  induction l1 with
  | nil => simp [pySplit]
  | cons x xs ih =>
    have hx : ¬x = c := fun he => h (by simp [he])
    have ihx := ih fun hm => h (List.mem_cons_of_mem x hm)
    simp [pySplit, hx, ihx]

/-- Unfolding equation for `mapExceptList` on a cons cell. -/
theorem mapExceptList_cons (f : α → Except ε β) (a : α) (as : List α) :
    mapExceptList f (a :: as) =
      match f a with
      | .error e => .error e
      | .ok b =>
        match mapExceptList f as with
        | .error e => .error e
        | .ok bs => .ok (b :: bs) := rfl

/-! ## Claim C4 -/

/-- **C4** (counterexample to the claim as stated): a line without a colon
— an echoed command, or a blank line — makes `parts[1]` raise
`IndexError` instead of yielding no record. -/
theorem stats_colonless_line_raises :
    parseRadioStatsString "AT+NUESTATS=\"RADIO\"" = .error .indexError ∧
    parseRadioStatsString "" = .error .indexError := by decide

/-- **C4** (amended): for every line that contains a colon and whose tag
(the stripped text before the first colon) is not the expected report tag
`NUESTATS`, the parse yields no record and is not an error, and the fold
over the remaining records proceeds as if the line were absent. Lines
with no colon at all, by contrast, raise `IndexError`. -/
theorem stats_wrong_tag_yields_none (s : String) (st : DeviceState) (buf : List String)
    (hc : ':' ∈ s.data) (ht : statsTag s ≠ "NUESTATS") :
    parseRadioStatsString s = .ok none ∧
    parseRadioStats st (s :: buf) = parseRadioStats st buf := by
  obtain ⟨p0, p1, t, hsplit⟩ := pySplit_two_of_mem hc
  have htag : String.mk (pyStripList p0) ≠ "NUESTATS" := by
    unfold statsTag at ht
    rw [hsplit] at ht
    simpa using ht
  have hparse : parseRadioStatsString s = .ok none := by
    unfold parseRadioStatsString
    rw [hsplit]
    simp [htag]
  refine ⟨hparse, ?_⟩
  unfold parseRadioStats
  rw [mapExceptList_cons, hparse]
  cases hrest : mapExceptList parseRadioStatsString buf with
  | error e => rfl
  | ok stats => rfl

theorem stats_wrong_tag_yields_none_witness :
    (':' ∈ ("FOO: 1" : String).data) ∧ statsTag "FOO: 1" ≠ "NUESTATS" ∧
    (parseRadioStatsString "FOO: 1" = .ok none ∧
      parseRadioStats initState ["FOO: 1", "NUESTATS: \"RADIO\",\"ECL\",1"] =
        parseRadioStats initState ["NUESTATS: \"RADIO\",\"ECL\",1"]) :=
  ⟨by decide, by decide,
    stats_wrong_tag_yields_none "FOO: 1" initState ["NUESTATS: \"RADIO\",\"ECL\",1"]
      (by decide) (by decide)⟩

/-! ## Claim C9 -/

/-- **C9**: folding a radio-statistics report consisting of the line
`NUESTATS: "RADIO","Signal power",-682` sets `radio_signal_power` to
`-682` and leaves every other device-state field unchanged, from any
starting state. -/
theorem radio_stats_signal_power_fold (st : DeviceState) :
    parseRadioStats st ["NUESTATS: \"RADIO\",\"Signal power\",-682"] =
      .ok { st with radio_signal_power := some (-682) } :=
  rfl

/-! ## Claim C8 -/

/-- An ASCII character encodes to exactly one byte, so for ASCII payloads
the character count equals the encoded byte count. -/
theorem pyEncode_length_of_ascii (l : List Char) (h : ∀ c ∈ l, c.toNat < 128) :
    (l.flatMap utf8EncodeChar).length = l.length := by
  induction l with
  | nil => rfl
  | cons c t ih =>
    have hc : utf8EncodeChar c = [c.toNat] := by
      simp [utf8EncodeChar, h c (List.mem_cons_self c t)]
    simp [List.flatMap_cons, hc, ih fun x hx => h x (List.mem_cons_of_mem c hx)]

/-- `hexlify` produces two characters per byte. -/
theorem hexlify_length (bs : List Nat) : (hexlify bs).length = 2 * bs.length := by
  show (bs.flatMap fun b => [hexDigit (b / 16), hexDigit (b % 16)]).length = 2 * bs.length
  induction bs with
  | nil => rfl
  | cons b t ih =>
    rw [List.flatMap_cons, List.length_append, ih]
    simp [Nat.mul_succ, Nat.add_comm]

/-- Upper-casing does not change the length. -/
theorem pyUpperS_length (s : String) : (pyUpperS s).length = s.length := by
  show (s.data.map Char.toUpper).length = s.data.length
  rw [List.length_map]

/-- **C8** (counterexample to the claim as stated): the length argument is
`len(data)`, the *character* count of the payload string, not the decoded
byte count. For the one-character payload `'é'` (U+00E9) the UTF-8
encoding is two bytes (`C3 A9`), yet the command carries length 1. -/
theorem send_udp_length_counterexample :
    sendUdpCommandN211 "h" 7 (String.mk [Char.ofNat 233]) =
      "AT+NSOST=0,\"h\",7,1,\"C3A9\"" ∧
    (pyEncode (String.mk [Char.ofNat 233])).length = 2 ∧
    (String.mk [Char.ofNat 233]).length ≠ (pyEncode (String.mk [Char.ofNat 233])).length := by
  decide

/-- **C8** (amended): in both UDP send primitives the payload bytes are
uppercase hex-encoded before being embedded as the quoted data argument,
and the length argument equals the character count of the payload string —
which equals the decoded byte length whenever the payload is ASCII, and is
then half the hex string's length, not the hex string length itself. -/
theorem send_udp_hex_uppercase_and_length (host : String) (port : Nat) (data : String)
    (hascii : ∀ c ∈ data.data, c.toNat < 128) :
    sendUdpCommandN211 host port data =
      "AT+NSOST=0," ++ "\"" ++ host ++ "\"," ++ toString port ++ ","
        ++ toString data.length ++ ",\"" ++ pyUpperS (hexlify (pyEncode data)) ++ "\"" ∧
    sendUdpCommandR4 host port data =
      "AT+USOST=0," ++ "\"" ++ host ++ "\"," ++ toString port ++ ","
        ++ toString data.length ++ ",\"" ++ pyUpperS (hexlify (pyEncode data)) ++ "\"" ∧
    data.length = (pyEncode data).length ∧
    (pyUpperS (hexlify (pyEncode data))).length = 2 * (pyEncode data).length := by
  refine ⟨rfl, rfl, ?_, ?_⟩
  · exact (pyEncode_length_of_ascii data.data hascii).symm
  · rw [pyUpperS_length, hexlify_length]

theorem send_udp_hex_uppercase_and_length_witness :
    (∀ c ∈ ("hi" : String).data, c.toNat < 128) ∧
    (sendUdpCommandN211 "a" 1 "hi" =
        "AT+NSOST=0," ++ "\"" ++ "a" ++ "\"," ++ toString 1 ++ ","
          ++ toString ("hi" : String).length ++ ",\"" ++ pyUpperS (hexlify (pyEncode "hi")) ++ "\"" ∧
      sendUdpCommandR4 "a" 1 "hi" =
        "AT+USOST=0," ++ "\"" ++ "a" ++ "\"," ++ toString 1 ++ ","
          ++ toString ("hi" : String).length ++ ",\"" ++ pyUpperS (hexlify (pyEncode "hi")) ++ "\"" ∧
      ("hi" : String).length = (pyEncode "hi").length ∧
      (pyUpperS (hexlify (pyEncode "hi"))).length = 2 * (pyEncode "hi").length) :=
  ⟨by decide, send_udp_hex_uppercase_and_length "a" 1 "hi" (by decide)⟩

/-! ## Claim C10 -/

/-- Upper-cased hex digits decode back to their value and are neither
whitespace, a comma nor a quote. -/
theorem hexDigit_upper_facts (n : Nat) (h : n < 16) :
    hexVal (Char.toUpper (hexDigit n)) = some n ∧
    Char.toUpper (hexDigit n) ≠ ' ' ∧ Char.toUpper (hexDigit n) ≠ ',' ∧
    Char.toUpper (hexDigit n) ≠ '"' := by
  interval_cases n <;> exact ⟨by decide, by decide, by decide, by decide⟩

/-- Hex round trip: `bytes.fromhex` inverts upper-cased `hexlify`. -/
theorem pyFromHex_hexlify_upper (bs : List Nat) (h : ∀ b ∈ bs, b < 256) :
    pyFromHex (pyUpperS (hexlify bs)) = some bs := by
  show pyFromHexGo (((bs.flatMap fun b => [hexDigit (b / 16), hexDigit (b % 16)]).map
    Char.toUpper).filter (· ≠ ' ')) = some bs
  induction bs with
  | nil => rfl
  | cons b t ih =>
    have hb := h b (List.mem_cons_self b t)
    have h1 : b / 16 < 16 := by omega
    have h2 : b % 16 < 16 := Nat.mod_lt _ (by omega)
    obtain ⟨hv1, hs1, -, -⟩ := hexDigit_upper_facts _ h1
    obtain ⟨hv2, hs2, -, -⟩ := hexDigit_upper_facts _ h2
    rw [List.flatMap_cons, List.map_append, List.filter_append]
    have hchunk : (([hexDigit (b / 16), hexDigit (b % 16)]).map Char.toUpper).filter
        (· ≠ ' ') = [Char.toUpper (hexDigit (b / 16)), Char.toUpper (hexDigit (b % 16))] := by
      simp [hs1, hs2]
    rw [hchunk]
    rw [List.cons_append, List.cons_append, List.nil_append]
    simp only [pyFromHexGo, hv1, hv2, ih fun x hx => h x (List.mem_cons_of_mem b hx)]
    rw [Nat.div_add_mod]

/-- The characters of an upper-cased hexlified payload contain no comma
and no quote. -/
theorem hex_chars_plain (bs : List Nat) (h : ∀ b ∈ bs, b < 256) :
    ∀ ch ∈ (pyUpperS (hexlify bs)).data, ch ≠ ',' ∧ ch ≠ '"' := by
  intro ch hch
  have hch' : ch ∈ (bs.flatMap fun b => [hexDigit (b / 16), hexDigit (b % 16)]).map
      Char.toUpper := hch
  rw [List.mem_map] at hch'
  obtain ⟨d, hd, rfl⟩ := hch'
  rw [List.mem_flatMap] at hd
  obtain ⟨b, hb, hdin⟩ := hd
  have hblt := h b hb
  have h1 : b / 16 < 16 := by omega
  have h2 : b % 16 < 16 := Nat.mod_lt _ (by omega)
  rcases List.mem_cons.mp hdin with h' | h'
  · subst h'
    obtain ⟨-, -, hc, hq⟩ := hexDigit_upper_facts _ h1
    exact ⟨hc, hq⟩
  · rcases List.mem_cons.mp h' with h'' | h''
    · subst h''
      obtain ⟨-, -, hc, hq⟩ := hexDigit_upper_facts _ h2
      exact ⟨hc, hq⟩
    · cases h''

/-- Quote-free character lists pass through `stripQuotes` unchanged. -/
theorem stripQuotes_eq_self (l : List Char) (h : ∀ ch ∈ l, ch ≠ '"') :
    stripQuotes l = l :=
  List.filter_eq_self.mpr fun a ha => by simpa using h a ha

theorem stripQuotes_append (l1 l2 : List Char) :
    stripQuotes (l1 ++ l2) = stripQuotes l1 ++ stripQuotes l2 :=
  List.filter_append ..

/-- **C10**: `_parse_udp_response` strips all double quotes, splits on
commas, and succeeds exactly on six fields: any line that does not split
into exactly six comma-separated fields raises `ValueError` instead of
returning data, and a well-formed line (quote-free, comma-free fields
around an upper-hex data field) returns exactly the hex-decoded fifth
field. -/
theorem parse_udp_response_spec :
    (∀ msg : String, (pySplit ',' (stripQuotes msg.data)).length ≠ 6 →
      parseUdpResponse msg = .error .valueError) ∧
    (∀ (sock ip port len rem : String) (bs : List Nat),
      (∀ f ∈ [sock, ip, port, len, rem], ∀ ch ∈ f.data, ch ≠ ',' ∧ ch ≠ '"') →
      (∀ b ∈ bs, b < 256) →
      parseUdpResponse
        (sock ++ "," ++ ip ++ "," ++ port ++ "," ++ len ++ ",\"" ++
          pyUpperS (hexlify bs) ++ "\"," ++ rem) = .ok bs) := by
  constructor
  · intro msg h
    unfold parseUdpResponse
    split
    · rename_i heq
      rw [heq] at h
      simp at h
    · rfl
  · intro sock ip port len rem bs hf hbs
    have hsock := hf sock (by simp)
    have hip := hf ip (by simp)
    have hport := hf port (by simp)
    have hlen := hf len (by simp)
    have hrem := hf rem (by simp)
    have hhex := hex_chars_plain bs hbs
    have hstrip : stripQuotes (sock ++ "," ++ ip ++ "," ++ port ++ "," ++ len ++ ",\"" ++
        pyUpperS (hexlify bs) ++ "\"," ++ rem).data =
        sock.data ++ ',' :: (ip.data ++ ',' :: (port.data ++ ',' :: (len.data ++ ',' ::
          ((pyUpperS (hexlify bs)).data ++ ',' :: rem.data)))) := by
      simp only [String.data_append, stripQuotes_append,
        show stripQuotes [','] = [','] from rfl,
        show stripQuotes [',', '"'] = [','] from rfl,
        show stripQuotes ['"', ','] = [','] from rfl,
        stripQuotes_eq_self sock.data (fun ch hch => (hsock ch hch).2),
        stripQuotes_eq_self ip.data (fun ch hch => (hip ch hch).2),
        stripQuotes_eq_self port.data (fun ch hch => (hport ch hch).2),
        stripQuotes_eq_self len.data (fun ch hch => (hlen ch hch).2),
        stripQuotes_eq_self rem.data (fun ch hch => (hrem ch hch).2),
        stripQuotes_eq_self (pyUpperS (hexlify bs)).data (fun ch hch => (hhex ch hch).2)]
      simp [List.append_assoc]
    have hnm : ∀ (f : String), (∀ ch ∈ f.data, ch ≠ ',' ∧ ch ≠ '"') → ',' ∉ f.data :=
      fun f hfc hm => (hfc ',' hm).1 rfl
    have hsplit : pySplit ',' (stripQuotes (sock ++ "," ++ ip ++ "," ++ port ++ "," ++ len
        ++ ",\"" ++ pyUpperS (hexlify bs) ++ "\"," ++ rem).data) =
        [sock.data, ip.data, port.data, len.data, (pyUpperS (hexlify bs)).data, rem.data] := by
      rw [hstrip,
        pySplit_append ',' sock.data _ (hnm sock hsock),
        pySplit_append ',' ip.data _ (hnm ip hip),
        pySplit_append ',' port.data _ (hnm port hport),
        pySplit_append ',' len.data _ (hnm len hlen),
        pySplit_append ',' (pyUpperS (hexlify bs)).data _ (hnm _ hhex),
        pySplit_not_mem ',' rem.data (hnm rem hrem)]
    unfold parseUdpResponse
    rw [hsplit]
    have hmk : String.mk (pyUpperS (hexlify bs)).data = pyUpperS (hexlify bs) := rfl
    simp only [hmk, pyFromHex_hexlify_upper bs hbs]

theorem parse_udp_response_spec_witness :
    ((pySplit ',' (stripQuotes ("no commas here" : String).data)).length ≠ 6 ∧
      parseUdpResponse "no commas here" = .error .valueError) ∧
    ((∀ f ∈ (["0", "192.168.1.2", "1024", "2", "0"] : List String),
        ∀ ch ∈ f.data, ch ≠ ',' ∧ ch ≠ '"') ∧
      (∀ b ∈ [104, 105], b < 256) ∧
      parseUdpResponse
        ("0" ++ "," ++ "192.168.1.2" ++ "," ++ "1024" ++ "," ++ "2" ++ ",\"" ++
          pyUpperS (hexlify [104, 105]) ++ "\"," ++ "0") = .ok [104, 105]) :=
  ⟨⟨by decide, parse_udp_response_spec.1 "no commas here" (by decide)⟩,
    ⟨by decide, by decide,
      parse_udp_response_spec.2 "0" "192.168.1.2" "1024" "2" "0" [104, 105]
        (by decide) (by decide)⟩⟩

/-! ## Concrete sanity checks of the model

Small closed evaluations documenting how the embedded functions behave on
representative inputs. -/

example : urcId "+CSCON: 0" = "CSCON" := by decide
example : processUrc initState "+CSCON: 0" = .ok { initState with connected := true } := by decide
example : processUrc initState "+CEREG: 0,5" =
    .ok { initState with eps_reg_status := some 5 } := by decide
example : processUrc initState "+NSONMI: 0,200" =
    .ok { initState with available_messages := ["0,200"] } := by decide
example : processUrc initState "+WHAT: 3" = .ok initState := by decide
example : processUrc initState "+CME ERROR: nope" = .error (.cmeError "+CME ERROR: nope") := by decide
example : atAction false "AT" initState ["\r\n", "DATA1", "", "DATA2", "OK", "later"] =
    .ok (initState, ["DATA1", "DATA2"], ["later"]) := by decide
example : atAction false "AT" initState ["\r\n", "LOOKUP", "DATA2", "OK"] =
    .ok (initState, ["LOOKUP"], ["DATA2", "OK"]) := by decide
example : atAction false "AT" initState ["\r\n", "DATA1", "ERROR", "OK"] =
    .error .atError := by decide
example : atAction true "AT+CEREG?" initState ["AT+CEREG?\r\r\n", "+CEREG: 0,5\r\n", "OK\r\n"] =
    .ok ({ initState with eps_reg_status := some 5 }, [], []) := by decide
example : specResultLines ["DATA1", "", "DATA2", "OK", "later"] = ["DATA1", "DATA2"] := by decide
example : parseRadioStatsString "NUESTATS: \"RADIO\",\"Signal power\",-682" =
    .ok (some ⟨"RADIO", "Signal power", -682⟩) := by decide
example : parseRadioStatsString "FOO: \"RADIO\",\"Signal power\",-682" = .ok none := by decide
example : parseRadioStatsString "" = .error .indexError := by decide
example : parseRadioStatsString "AT+NUESTATS=\"RADIO\"" = .error .indexError := by decide
example : parseRadioStats initState ["NUESTATS: \"RADIO\",\"Signal power\",-682"] =
    .ok { initState with radio_signal_power := some (-682) } := by decide
example : sendUdpCommandN211 "1.2.3.4" 7 "hello" =
    "AT+NSOST=0,\"1.2.3.4\",7,5,\"68656C6C6F\"" := by decide
example : sendUdpCommandN211 "h" 7 (String.mk [Char.ofNat 233]) =
    "AT+NSOST=0,\"h\",7,1,\"C3A9\"" := by decide
example : parseUdpResponse "0,\"192.168.1.2\",1024,5,\"68656C6C6F\",0" =
    .ok [104, 101, 108, 108, 111] := by decide
example : parseUdpResponse "garbage" = .error .valueError := by decide
example : connectN211 false (.byName "VODAFONE") initState ["\r\n", "OK"] =
    ([], .error .valueError) := by decide
example : connectN211 false (.byId 24001) initState ["\r\n", "OK"] =
    (["AT+COPS=1,2,\"24001\""], .error .attributeError) := by decide
example : connectN211 false (.byName "telia") initState
      ["\r\n", "OK", "+CEREG: 5\r\n"] =
    (["AT+COPS=1,2,\"24001\""], .ok { initState with eps_reg_status := some 5 }) := by decide
example :
    awaitConnectionR4 false (.byName "TELIA") 180 initState
      [(["\r\n", "+CEREG: 0,0", "OK"], 200), (["\r\n", "+CEREG: 0,0", "OK"], 300)] =
    .outOfPolls { initState with eps_reg_status := some 0 } := by decide
example :
    awaitConnectionR4 false (.byName "TELIA") 180 initState
      [(["\r\n", "+CEREG: 0,0", "OK"], 100), (["\r\n", "+CEREG: 0,5", "OK"], 300)] =
    .connected { initState with eps_reg_status := some 5 } := by decide
example :
    awaitConnectionR4 false (.byName "TELIA") 180 initState
      [(["\r\n", "+CEREG: 0,2", "OK"], 200), (["\r\n", "+CEREG: 0,5", "OK"], 300)] =
    .err .connectionTimeout := by decide

end Ublox
